import Mathlib

/-!
Verification of the GUISpector specification against the code.

Shallow embedding of the parts of the repository the claims concern:

* `gui_spector/verfication/agent.py` — `VerficationRunner`:
  decision extraction (`_extract_json`), acceptance-criteria name
  validation (`_validate_acceptance_criteria_names`), status derivation
  (`_derive_status_from_acceptance`), the decision-handling tail of
  `run`, the turn loop of `run_full_turn`, the `computer_call` branch of
  `handle_item`, and the interaction-building loop of `run`.
* `webapp/setups/resource_manager.py` — `DisplayPool` over Redis
  (`seed_if_needed`, `acquire`, `release`, `reap_expired`), modelled as
  explicit state passing with Redis list/key semantics spelled out
  (LPUSH = cons at the head, RPUSH = append at the tail, BLMOVE
  RIGHT LEFT = pop the tail of the source and cons onto the destination,
  LREM with count 1 = drop the first occurrence, LREM with count 0 =
  drop all occurrences, and a BLMOVE timeout of 0 = block indefinitely).

Python dynamic values are embedded as the inductive `PyVal`; machine
integers are `Int` (Python integers are unbounded, so no wrap-around is
modelled); fallible code returns `Except`.
-/

set_option maxRecDepth 4096

namespace GUISpector

/-- Embedding of the Python values that flow through the decision JSON:
`None`, booleans, integers, strings, lists and string-keyed dicts
(a dict is an association list; lookup takes the first binding). -/
inductive PyVal : Type where
  | none : PyVal
  | bool (b : Bool) : PyVal
  | int (n : Int) : PyVal
  | str (s : String) : PyVal
  | list (xs : List PyVal) : PyVal
  | dict (kvs : List (String × PyVal)) : PyVal

/-- Python truthiness: `None`, `False`, `0`, `""`, `[]` and `{}` are
falsy, everything else truthy. -/
def pyTruthy : PyVal → Bool
  | .none => false
  | .bool b => b
  | .int n => n != 0
  | .str s => s != ""
  | .list xs => !xs.isEmpty
  | .dict kvs => !kvs.isEmpty

/-- Python's `str.isspace` characters (`" \t\n\r\x0b\x0c"`), the set
`str.strip()` removes. -/
def pyIsSpace (c : Char) : Bool :=
  c = ' ' || c = '\t' || c = '\n' || c = '\r' || c.toNat = 11 || c.toNat = 12

/-- ASCII lowering of one character (`str.lower()`; the statuses and
names the code lowers are ASCII). -/
def pyLowerChar (c : Char) : Char :=
  if 'A' ≤ c && c ≤ 'Z' then Char.ofNat (c.toNat + 32) else c

/-- Drop leading and trailing whitespace from a character list. -/
def trimChars (cs : List Char) : List Char :=
  ((cs.dropWhile pyIsSpace).reverse.dropWhile pyIsSpace).reverse

/-- Python `s.strip()`. -/
def pyStrip (s : String) : String := String.mk (trimChars s.data)

/-- Python `s.strip().lower()`. -/
def pyStripLower (s : String) : String :=
  String.mk ((trimChars s.data).map pyLowerChar)

/-- `d.get(key, default)` on a dict; on any non-dict value the model
returns the default (the Python code only calls `.get` on dicts, or
guards the call with `try`/`except`). -/
def pyGetD (v : PyVal) (key : String) (default : PyVal) : PyVal :=
  match v with
  | .dict kvs =>
    match kvs.lookup key with
    | some w => w
    | Option.none => default
  | _ => default

/-- `d.get(key)` — default `None`. -/
def pyGet (v : PyVal) (key : String) : PyVal :=
  pyGetD v key .none

/-- Whether the value is a dict (`isinstance(v, dict)`). -/
def PyVal.isDict : PyVal → Bool
  | .dict _ => true
  | _ => false

/-- Whether the value is a list (`isinstance(v, list)`). -/
def PyVal.isList : PyVal → Bool
  | .list _ => true
  | _ => false

/-- Python `repr` of a string (escape handling is irrelevant to the
claims: these reprs only feed diagnostic strings). -/
def pyReprStr (s : String) : String := "'" ++ s ++ "'"

/-- Python `str()` of an embedded value, as used on `item.get("status")`:
`str(True) = "True"`, `str(None) = "None"`, etc.  Container reprs are
approximated; they begin with a bracket, so they never fall in the
met/unmet synonym lists the caller compares against. -/
def pyStr : PyVal → String
  | .none => "None"
  | .bool b => if b then "True" else "False"
  | .int n => toString n
  | .str s => s
  | .list _ => "[...]"
  | .dict _ => "{...}"

/-- `VerificationStatus` from `models/verfication_run_result.py`. -/
inductive VerificationStatus : Type where
  | met
  | unmet
  | partiallyMet
  | error
deriving DecidableEq, Repr

/-- `x or y` for Python values (used in `parsed_json.get(...) or []`). -/
def pyOr (x y : PyVal) : PyVal :=
  if pyTruthy x then x else y

/-- The met-synonym list of `_derive_status_from_acceptance`. -/
def metSynonyms : List String := ["met", "pass", "true", "yes", "1"]

/-- The unmet-synonym list of `_derive_status_from_acceptance`. -/
def unmetSynonyms : List String := ["unmet", "fail", "false", "no", "0"]

/-- One iteration of the `for item in results` loop of
`_derive_status_from_acceptance`, updating `(any_met, any_unmet)`. -/
def deriveStep (acc : Bool × Bool) (item : PyVal) : Bool × Bool :=
  if item.isDict then
    match pyGet item "met" with
    | .bool b => (acc.1 || b, acc.2 || !b)
    | _ =>
      let statusRaw := pyStripLower (pyStr (pyGetD item "status" (.str "")))
      if statusRaw ∈ metSynonyms then (true, acc.2)
      else if statusRaw ∈ unmetSynonyms then (acc.1, true)
      else acc
  else acc

/-- `VerficationRunner._derive_status_from_acceptance` (agent.py
511–547): derive the overall status from
`parsed_json.get("acceptance_criteria_results") or []`.  Non-list or
empty results give ERROR; otherwise fold `(any_met, any_unmet)` over the
entries and combine. -/
def deriveStatusFromAcceptance (parsedJson : PyVal) : VerificationStatus :=
  let results := pyOr (pyGet parsedJson "acceptance_criteria_results") (.list [])
  match results with
  | .list rs =>
    if rs.length = 0 then .error
    else
      let flags := rs.foldl deriveStep (false, false)
      let anyMet := flags.1
      let anyUnmet := flags.2
      if anyMet && anyUnmet then .partiallyMet
      else if anyMet && !anyUnmet then .met
      else if !anyMet && anyUnmet then .unmet
      else .unmet
  | _ => .error

/-- An entry recognized as met by the fold: a dict with boolean
`met = True`, or no boolean `met` and a status string (stripped,
lowered) among the met synonyms. -/
def entryMet (item : PyVal) : Bool :=
  item.isDict &&
    match pyGet item "met" with
    | .bool b => b
    | _ => pyStripLower (pyStr (pyGetD item "status" (.str ""))) ∈ metSynonyms

/-- An entry recognized as unmet by the fold: a dict with boolean
`met = False`, or no boolean `met` and a status string among the unmet
synonyms. -/
def entryUnmet (item : PyVal) : Bool :=
  item.isDict &&
    match pyGet item "met" with
    | .bool b => !b
    | _ => pyStripLower (pyStr (pyGetD item "status" (.str ""))) ∈ unmetSynonyms

/-! ### Acceptance-criteria name validation (agent.py 484–509) -/

/-- Code-point lexicographic order on strings — exactly Python's `<=`
on `str`, and kernel-reducible. -/
def charsLe : List Char → List Char → Bool
  | [], _ => true
  | _ :: _, [] => false
  | a :: as, b :: bs =>
    if a.toNat < b.toNat then true
    else if b.toNat < a.toNat then false
    else charsLe as bs

/-- `a <= b` on strings, Python semantics. -/
def strLe (a b : String) : Bool := charsLe a.data b.data

/-- Insert into a sorted list of strings. -/
def insSorted (x : String) : List String → List String
  | [] => [x]
  | y :: ys => if strLe x y then x :: y :: ys else y :: insSorted x ys

/-- Python `sorted` on a list of strings (any correct sort produces the
same list; the inputs here are duplicate-free). -/
def sortStrings (xs : List String) : List String := xs.foldr insSorted []

/-- A Python `set` of strings, modelled as a duplicate-free list keeping
first-insertion order. -/
def pySetInsert (acc : List String) (x : String) : List String :=
  if x ∈ acc then acc else acc ++ [x]

/-- Build a set from a list. -/
def pySetOf (xs : List String) : List String := xs.foldl pySetInsert []

/-- Python set equality: mutual membership. -/
def setEqv (a b : List String) : Bool :=
  a.all (fun x => x ∈ b) && b.all (fun x => x ∈ a)

/-- Python set difference `a - b` on the deduplicated lists. -/
def setDiff (a b : List String) : List String :=
  a.filter (fun x => x ∉ b)

/-- An acceptance criterion of a `Requirements` object
(`models/acceptance_criterion.py`): the claims only touch its `name`. -/
structure AcceptanceCriterion where
  name : String

/-- `expected_names = {str(c.name).strip() for c in requirement.acceptance_criteria}`. -/
def expectedNames (criteria : List AcceptanceCriterion) : List String :=
  pySetOf (criteria.map (fun c => pyStrip c.name))

/-- `reported_names`: for each entry of
`parsed_json.get("acceptance_criteria_results")` (when it is a list),
take `item.get("criterion_name")` (the `try`/`except` maps a non-dict
entry to `None`), skip `None`, and add `str(name).strip()`. -/
def reportedNames (parsedJson : PyVal) : List String :=
  match pyGet parsedJson "acceptance_criteria_results" with
  | .list items =>
    pySetOf (items.filterMap (fun item =>
      match pyGet item "criterion_name" with
      | .none => Option.none
      | v => some (pyStrip (pyStr v))))
  | _ => []

/-- The payload of `AcceptanceCriteriaMismatchException`: the sorted
missing (expected but not reported) and extra (reported but not
expected) names the exception message carries. -/
structure MismatchExc where
  missing : List String
  extra : List String
deriving DecidableEq, Repr

/-- `VerficationRunner._validate_acceptance_criteria_names` (agent.py
484–509): compare the two name sets strictly; on mismatch raise
`AcceptanceCriteriaMismatchException` with
`missing = sorted(expected - reported)` and
`extra = sorted(reported - expected)`. -/
def validateAcceptanceCriteriaNames (parsedJson : PyVal)
    (criteria : List AcceptanceCriterion) : Except MismatchExc Unit :=
  let expected := expectedNames criteria
  let reported := reportedNames parsedJson
  if setEqv expected reported then .ok ()
  else .error ⟨sortStrings (setDiff expected reported),
               sortStrings (setDiff reported expected)⟩

/-! ### Decision extraction (`_extract_json`, agent.py 453–482) -/

/-- Index of the first occurrence of `c` in `cs`, if any. -/
def firstIdxOf (c : Char) (cs : List Char) : Option Nat :=
  match cs with
  | [] => Option.none
  | x :: xs => if x = c then some 0 else (firstIdxOf c xs).map (· + 1)

/-- Index of the last occurrence of `c` in `cs`, if any. -/
def lastIdxOf (c : Char) (cs : List Char) : Option Nat :=
  match (firstIdxOf c cs.reverse) with
  | some i => some (cs.length - 1 - i)
  | Option.none => Option.none

/-- Index of the first occurrence of the pattern `pat` as a sublist of
`cs`, if any. -/
def findSub (pat : List Char) : List Char → Option Nat
  | [] => if pat.isEmpty then some 0 else Option.none
  | x :: xs =>
    if pat.isPrefixOf (x :: xs) then some 0
    else (findSub pat xs).map (· + 1)

/-- The code-fence regex
`re.search(r"```(?:json)?\s*([\s\S]*?)\s*```", full_text)`: if the text
has an opening fence (optionally followed by `json`) and a closing
fence, the candidate is the whitespace-trimmed text between them;
otherwise the candidate is the full text. -/
def stripFence (s : String) : String :=
  let cs := s.data
  match findSub "```".data cs with
  | Option.none => s
  | some i =>
    let afterOpen := cs.drop (i + 3)
    let afterJson :=
      if "json".data.isPrefixOf afterOpen then afterOpen.drop 4 else afterOpen
    match findSub "```".data afterJson with
    | Option.none => s
    | some j => String.mk (trimChars (afterJson.take j))

/-- `re.findall(r"\{[\s\S]*\}", candidate)`: the greedy star makes one
match from the first `{` to the last `}` (when the first `{` precedes
the last `}`), and no further match is possible after it. -/
def findJsonLike (s : String) : List String :=
  let cs := s.data
  match firstIdxOf '{' cs, lastIdxOf '}' cs with
  | some i, some j =>
    if i < j then [String.mk ((cs.drop i).take (j + 1 - i))] else []
  | _, _ => []

/-- `"text" in parts[0]` followed by `parts[0]["text"]`: the text of the
first content part of a message item, when the part is a dict with a
string under `"text"` (`"\n\n".join` requires the values to be
strings). -/
def firstPartText (parts : List PyVal) : Option String :=
  match parts with
  | [] => Option.none
  | p :: _ =>
    match pyGet p "text" with
    | .str t => some t
    | _ => Option.none

/-- The `text_segments` collection of `_extract_json`: texts of items
with `type == "message"` whose content is a truthy list with a text in
its first part. -/
def textSegments (items : List PyVal) : List String :=
  items.filterMap (fun item =>
    if (match pyGet item "type" with | .str s => s == "message" | _ => false) then
      match pyGetD item "content" (.list []) with
      | .list parts => if parts.isEmpty then Option.none else firstPartText parts
      | _ => Option.none
    else Option.none)

/-- Python `repr` of a list of strings, used in the
`json_like={json_like}` diagnostic. -/
def pyReprStrList (xs : List String) : String :=
  "[" ++ String.intercalate ", " (xs.map pyReprStr) ++ "]"

/-- The value `_extract_json` returns: the function's `return`
statements are inconsistent — two of them return a 2-tuple
`(None, error)` and two a 3-tuple `(parsed, error, last)`.  The
constructors record the tuple arity. -/
inductive ExtractResult : Type where
  | twoTuple (parsed : Option PyVal) (err : String) : ExtractResult
  | threeTuple (parsed : Option PyVal) (err : Option String) (last : String) : ExtractResult

/-- `VerficationRunner._extract_json` (agent.py 453–482), parameterized
by `loads`, the model of `json.loads` (`.error e` is a
`JSONDecodeError` with message `e`). -/
def extractJson (loads : String → Except String PyVal) (items : List PyVal) :
    ExtractResult :=
  let segs := textSegments items
  if segs.isEmpty then .twoTuple Option.none "no_assistant_text"
  else
    let fullText := String.intercalate "\n\n" segs
    let candidate := stripFence fullText
    let jsonLike := findJsonLike candidate
    match jsonLike.getLast? with
    | Option.none => .twoTuple Option.none "no_json_output"
    | some last =>
      match loads last with
      | .ok parsed => .threeTuple (some parsed) Option.none last
      | .error e =>
        .threeTuple Option.none
          (some ("json_parse_error: " ++ e ++ "; json_like=" ++ pyReprStrList jsonLike))
          last

/-! ### The decision-handling tail of `run` (agent.py 601–673) -/

/-- How `run` can raise while handling the decision: the `ValueError`
from unpacking a 2-tuple into
`parsed_json, parse_error, last_json = self._extract_json(items)`, or
the `AcceptanceCriteriaMismatchException` from name validation. -/
inductive RunError : Type where
  | unpackValueError (msg : String) : RunError
  | mismatch (e : MismatchExc) : RunError

/-- The fields of the returned `VerficationRunResult` the claims are
about. -/
structure FinalResult where
  status : VerificationStatus
  error : Option String
  currentUrl : Option String
  modelDecision : Option PyVal

/-- `current_url = parsed_json.get("final_url") or None`. -/
def finalUrlOf (parsedJson : PyVal) : Option String :=
  match pyOr (pyGet parsedJson "final_url") .none with
  | .str s => if s != "" then some s else Option.none
  | _ => Option.none

/-- The decision-handling tail of `VerficationRunner.run` (agent.py
601–673): unpack `_extract_json` (a 2-tuple raises
`ValueError: not enough values to unpack (expected 3, got 2)`), start
from status UNMET, derive the status when the parsed decision is a
truthy dict (else ERROR when there is a parse error), validate names
when the parsed decision is truthy (raising on mismatch), and append
`"last_json: " + last_json` to a parse error before storing it on the
result. -/
def runFinalize (loads : String → Except String PyVal) (items : List PyVal)
    (criteria : List AcceptanceCriterion) : Except RunError FinalResult := do
  match extractJson loads items with
  | .twoTuple _ _ =>
    throw (.unpackValueError "not enough values to unpack (expected 3, got 2)")
  | .threeTuple parsedJson parseError lastJson =>
    let truthyParsed := match parsedJson with
      | some d => pyTruthy d
      | Option.none => false
    let (status, currentUrl) :=
      match parsedJson with
      | some d =>
        if pyTruthy d && d.isDict then
          (deriveStatusFromAcceptance d, finalUrlOf d)
        else if parseError.isSome then (VerificationStatus.error, Option.none)
        else (VerificationStatus.unmet, Option.none)
      | Option.none =>
        if parseError.isSome then (VerificationStatus.error, Option.none)
        else (VerificationStatus.unmet, Option.none)
    if truthyParsed then
      match parsedJson with
      | some d =>
        match validateAcceptanceCriteriaNames d criteria with
        | .ok () => pure ()
        | .error e => throw (.mismatch e)
      | Option.none => pure ()
    else
      pure ()
    let error := parseError.map (fun e => e ++ "last_json: " ++ lastJson)
    return ⟨status, error, currentUrl, parsedJson⟩

/-! ### `handle_item`, `computer_call` branch (agent.py 141–204)

The side effects against the environment are made explicit as an event
trace: executing the GUI action, taking the screenshot, and each
invocation of the safety-check acknowledgment callback. -/

/-- Observable environment events of the `computer_call` branch, in
program order. -/
inductive EnvEvent : Type where
  | execAction (actionType : String) : EnvEvent
  | screenshot : EnvEvent
  | ackCallback (message : String) : EnvEvent
deriving DecidableEq, Repr

/-- The `for check in pending_checks` loop: invoke the callback on each
message in order; a `False` return raises
`ValueError("Safety check failed: ...")` immediately. -/
def ackChecksLoop (ack : String → Bool) :
    List String → List EnvEvent × Except String Unit
  | [] => ([], .ok ())
  | m :: ms =>
    if ack m then
      let (tr, r) := ackChecksLoop ack ms
      (.ackCallback m :: tr, r)
    else
      ([.ackCallback m],
       .error ("Safety check failed: " ++ m ++
         ". Cannot continue with unacknowledged safety checks."))

/-- The `computer_call` branch of `VerficationRunner.handle_item`
(agent.py 141–204): execute the action against the environment, take
the screenshot, then run the safety-check acknowledgment loop; only
when every pending check is acknowledged is the
`computer_call_output` (acknowledging the checks) returned.  Returns
the environment event trace together with the raised-or-returned
result. -/
def handleComputerCall (ack : String → Bool) (actionType : String)
    (pendingChecks : List String) :
    List EnvEvent × Except String (List String) :=
  let (ackTrace, ackResult) := ackChecksLoop ack pendingChecks
  (.execAction actionType :: .screenshot :: ackTrace,
   ackResult.map (fun _ => pendingChecks))

/-! ### The turn loop of `run_full_turn` (agent.py 206–383)

The decision model is abstracted as the sequence `respond` of response
outputs (one list of items per completed turn, in order), and
`handle_item` as a function from an item to the extra items it
returns; the loop state is `new_items` (which starts empty — the
initial user message lives in `input_items`, which the loop condition
never inspects) and the completed-turn counter. -/

/-- The `while` condition
`new_items[-1].get("role") != "assistant" if new_items else True`. -/
def loopContinues (newItems : List PyVal) : Bool :=
  match newItems.getLast? with
  | Option.none => true
  | some it =>
    match pyGet it "role" with
    | .str s => s != "assistant"
    | _ => true

/-- One turn's growth of `new_items`:
`new_items += response["output"]`, then for each output item
`new_items += self.handle_item(item)`. -/
def turnAppend (handle : PyVal → List PyVal) (newItems output : List PyVal) :
    List PyVal :=
  newItems ++ output ++ output.flatMap handle

/-- `new_items` after `t` completed turns (starting from the empty
list). -/
def itemsAfter (respond : Nat → List PyVal) (handle : PyVal → List PyVal) :
    Nat → List PyVal
  | 0 => []
  | t + 1 => turnAppend handle (itemsAfter respond handle t) (respond t)

/-- Outcome of the turn loop: normal exit with the accumulated items
and the number of completed turns, the
`MaximumReasoningStepsReachedException` (recording the completed-turn
count at the raise), or fuel exhaustion (a model artifact standing for
a loop that is still running). -/
inductive LoopResult : Type where
  | done (newItems : List PyVal) (turnsCompleted : Nat) : LoopResult
  | maxStepsReached (turnsCompleted : Nat) : LoopResult
  | stillRunning : LoopResult

/-- The `while` loop of `run_full_turn` (agent.py 228–377), with
explicit fuel: test the condition; run a turn (append the response
output and the handled items); increment `turns_completed`; raise
`MaximumReasoningStepsReachedException` once
`isinstance(max_reasoning_steps, int) and max_reasoning_steps > 0 and
turns_completed >= max_reasoning_steps`. -/
def runFullTurnLoop (respond : Nat → List PyVal) (handle : PyVal → List PyVal)
    (maxReasoningSteps : Option Nat) :
    Nat → List PyVal → Nat → LoopResult
  | 0, _, _ => .stillRunning
  | fuel + 1, newItems, turnsCompleted =>
    if loopContinues newItems then
      let output := respond turnsCompleted
      let newItems' := turnAppend handle newItems output
      let turnsCompleted' := turnsCompleted + 1
      match maxReasoningSteps with
      | some m =>
        if 0 < m && m ≤ turnsCompleted' then .maxStepsReached turnsCompleted'
        else runFullTurnLoop respond handle maxReasoningSteps fuel newItems' turnsCompleted'
      | Option.none =>
        runFullTurnLoop respond handle maxReasoningSteps fuel newItems' turnsCompleted'
    else
      .done newItems turnsCompleted

/-- Entry point of the loop: `new_items = []`, `turns_completed = 0`. -/
def runFullTurn (respond : Nat → List PyVal) (handle : PyVal → List PyVal)
    (maxReasoningSteps : Option Nat) (fuel : Nat) : LoopResult :=
  runFullTurnLoop respond handle maxReasoningSteps fuel [] 0

/-! ### The interaction-building loop of `run` (agent.py 607–632) -/

/-- `Usage` (models/usage.py). -/
structure Usage where
  tokensIn : Int
  tokensOut : Int
  tokensReasoning : Int
  tokensTotal : Int
deriving DecidableEq

/-- The action payload recorded for a turn (models/computer_action.py);
its contents are carried through unchanged, so its fields are left
abstract as strings. -/
structure ComputerAction where
  actionType : String
  callId : Option String
deriving DecidableEq

/-- One entry of `self._response_extras` (agent.py 336–348):
the per-response data collected by `run_full_turn`.  Timestamps are
abstract instants (`Nat`); `elapsed_s` is carried through unchanged, so
a rational stands in for the float. -/
structure ResponseExtra where
  responseId : Option String
  usage : Option Usage
  reasoningSummary : Option String
  messageText : Option String
  action : Option ComputerAction
  screenshotPath : Option String
  startedAt : Nat
  finishedAt : Nat
  elapsedS : ℚ

/-- An `Interaction` (models/interaction.py, `Interaction.create`):
the nondeterministically fresh `uuid4` id is not modelled; every other
field is copied from the arguments. -/
structure Interaction where
  turnIndex : Nat
  startedAt : Nat
  finishedAt : Nat
  elapsedS : ℚ
  modelResponseId : Option String
  reasoningSummary : Option String
  messageText : Option String
  screenshotPath : Option String
  usage : Option Usage
  action : Option ComputerAction

/-- `Interaction.create(turn_index=turn_idx+1, ..., screenshot_path=prev_screenshot_path, ...)`
applied to one `extra` (agent.py 612–626). -/
def mkInteraction (turnIndex : Nat) (prevScreenshot : Option String)
    (extra : ResponseExtra) : Interaction :=
  { turnIndex := turnIndex
    startedAt := extra.startedAt
    finishedAt := extra.finishedAt
    elapsedS := extra.elapsedS
    modelResponseId := extra.responseId
    reasoningSummary := extra.reasoningSummary
    messageText := extra.messageText
    screenshotPath := prevScreenshot
    usage := extra.usage
    action := extra.action }

/-- The body of the `for idx, extra in enumerate(self._response_extras)`
loop for `idx ≥ 1`, threading `prev_screenshot_path` and `turn_idx`. -/
def buildInteractionsAux (prevScreenshot : Option String) (turnIdx : Nat) :
    List ResponseExtra → List Interaction
  | [] => []
  | extra :: rest =>
    mkInteraction (turnIdx + 1) prevScreenshot extra ::
      buildInteractionsAux extra.screenshotPath (turnIdx + 1) rest

/-- The interaction-building loop of `run` (agent.py 607–632): the
first response (`idx == 0`) only seeds `prev_screenshot_path`; each
later response yields an `Interaction` whose screenshot is the previous
response's and whose other fields are its own. -/
def buildInteractions : List ResponseExtra → List Interaction
  | [] => []
  | first :: rest => buildInteractionsAux first.screenshotPath 0 rest

/-! ### `DisplayPool` (webapp/setups/resource_manager.py)

The Redis state touched by the pool, as explicit state: the `free` and
`leased` lists (head = Redis left), the `lease:{disp}` keys as an
association list (TTL expiry is an external deletion; the claims all
read "with no intervening lease changes", so no clock is modelled), and
the `initialized` flag. -/

/-- The display identifier `f":{base + i}"`. -/
def dispName (base i : Nat) : String := ":" ++ toString (base + i)

/-- The Redis keys of one `DisplayPool` namespace. -/
structure PoolState where
  free : List String
  leased : List String
  leases : List (String × Nat)
  initialized : Bool
deriving DecidableEq

/-- The empty Redis state (nothing seeded). -/
def PoolState.empty : PoolState := ⟨[], [], [], false⟩

/-- `SET lease:{disp} run_id EX ttl` — overwrite the lease record. -/
def setLease (leases : List (String × Nat)) (disp : String) (runId : Nat) :
    List (String × Nat) :=
  (disp, runId) :: leases.filter (fun kv => kv.1 ≠ disp)

/-- `EXISTS lease:{disp}`. -/
def leaseExists (leases : List (String × Nat)) (disp : String) : Bool :=
  (leases.lookup disp).isSome

/-- `DEL lease:{disp}`. -/
def delLease (leases : List (String × Nat)) (disp : String) :
    List (String × Nat) :=
  leases.filter (fun kv => kv.1 ≠ disp)

/-- `LREM key 1 x`: remove the first occurrence of `x` (scanning from
the head). -/
def lremFirst (xs : List String) (x : String) : List String :=
  match xs with
  | [] => []
  | y :: ys => if y = x then ys else y :: lremFirst ys x

/-- `LREM key 0 x`: remove every occurrence of `x`. -/
def lremAll (xs : List String) (x : String) : List String :=
  xs.filter (fun y => y ≠ x)

/-- `DisplayPool.seed_if_needed` (resource_manager.py 26–38): `SETNX`
the `initialized` flag; when not yet set, `RPUSH` the `size` display
names onto `free` in order `i = 0 .. size-1`. -/
def seedIfNeeded (base size : Nat) (s : PoolState) : PoolState :=
  if s.initialized then s
  else
    { s with
      initialized := true
      free := s.free ++ (List.range size).map (dispName base) }

/-- What an `acquire` call does, under single-client semantics (no
other process pushes onto `free` while this call waits). -/
inductive AcquireResult : Type where
  /-- `BLMOVE` moved a display; the lease key was set and the display
  returned. -/
  | ok (disp : String) (s : PoolState) : AcquireResult
  /-- `BLMOVE` returned nil after `block_timeout` seconds; `acquire`
  raised `TimeoutError("No display available")`. -/
  | timeout (s : PoolState) : AcquireResult
  /-- `BLMOVE` with timeout `0` blocks indefinitely (Redis semantics: a
  zero timeout means block forever); the call never returns. -/
  | blocked : AcquireResult
deriving DecidableEq

/-- The display an `acquire` call returned, when it returned one. -/
def AcquireResult.disp? : AcquireResult → Option String
  | .ok d _ => some d
  | _ => Option.none

/-- The state after an `acquire` call that came back (on `blocked` the
call never returns; the untouched Redis state is irrelevant there and
this accessor is not used on it). -/
def AcquireResult.state? : AcquireResult → Option PoolState
  | .ok _ s => some s
  | .timeout s => some s
  | .blocked => Option.none

/-- `DisplayPool.acquire` (resource_manager.py 40–53): seed if needed,
then `BLMOVE free leased RIGHT LEFT block_timeout` — pop the tail of
`free` and cons it onto `leased`; on success set the lease key with a
TTL and return the display; with the list empty, a zero timeout blocks
forever and a positive one yields nil, which raises `TimeoutError`. -/
def acquire (base size : Nat) (runId : Nat) (blockTimeout : Nat)
    (s : PoolState) : AcquireResult :=
  let s := seedIfNeeded base size s
  match s.free.getLast? with
  | some disp =>
    .ok disp
      { s with
        free := s.free.dropLast
        leased := disp :: s.leased
        leases := setLease s.leases disp runId }
  | Option.none =>
    if blockTimeout = 0 then .blocked else .timeout s

/-- `DisplayPool.release` (resource_manager.py 60–66): `LREM leased 1
disp`, `LPUSH free disp`, `DEL lease:{disp}` — unconditionally. -/
def release (disp : String) (s : PoolState) : PoolState :=
  { s with
    leased := lremFirst s.leased disp
    free := disp :: s.free
    leases := delLease s.leases disp }

/-- The body of `reap_expired` for one display index: when the lease
key is absent, `LREM leased 0 disp`, `LREM free 0 disp`, `LPUSH free
disp`, and count it as reclaimed. -/
def reapOne (base : Nat) (acc : Nat × PoolState) (i : Nat) : Nat × PoolState :=
  let disp := dispName base i
  let s := acc.2
  if leaseExists s.leases disp then acc
  else
    (acc.1 + 1,
     { s with
       leased := lremAll s.leased disp
       free := disp :: lremAll s.free disp })

/-- `DisplayPool.reap_expired` (resource_manager.py 68–85): scan the
fixed index range `0 .. size-1`; reclaim every display whose lease key
is absent; return the count together with the new state. -/
def reapExpired (base size : Nat) (s : PoolState) : Nat × PoolState :=
  (List.range size).foldl (reapOne base) (0, s)

/-! ## Helper lemmas -/

theorem synonymsDisjoint (s : String) (h1 : s ∈ metSynonyms)
    (h2 : s ∈ unmetSynonyms) : False := by
  fin_cases h1 <;> simp [unmetSynonyms] at h2

theorem ifChainEq (a b : Bool) (s : String) :
    (if s ∈ metSynonyms then (true, b)
     else if s ∈ unmetSynonyms then (a, true) else (a, b)) =
    (a || decide (s ∈ metSynonyms), b || decide (s ∈ unmetSynonyms)) := by
  by_cases hm : s ∈ metSynonyms
  · have hu : s ∉ unmetSynonyms := fun hu => synonymsDisjoint s hm hu
    simp [hm, hu]
  · by_cases hu : s ∈ unmetSynonyms <;> simp [hm, hu]

/-- One step of the `(any_met, any_unmet)` fold ORs in the entry's
classification. -/
theorem deriveStep_eq (acc : Bool × Bool) (item : PyVal) :
    deriveStep acc item = (acc.1 || entryMet item, acc.2 || entryUnmet item) := by
  cases item <;>
    simp only [deriveStep, entryMet, entryUnmet, PyVal.isDict, Bool.false_and,
      Bool.or_false, if_neg Bool.false_ne_true, Bool.true_and, if_true]
  case dict kvs =>
    cases h : pyGet (.dict kvs) "met" <;> simp only [] <;>
      first
        | rfl
        | exact ifChainEq acc.1 acc.2 _

/-- The fold computes `any_met = ∃ entry recognized met` and
`any_unmet = ∃ entry recognized unmet`. -/
theorem foldl_deriveStep (rs : List PyVal) (a b : Bool) :
    rs.foldl deriveStep (a, b) = (a || rs.any entryMet, b || rs.any entryUnmet) := by
  induction rs generalizing a b with
  | nil => simp
  | cons x xs ih =>
    simp only [List.foldl_cons, List.any_cons, deriveStep_eq, ih, Bool.or_assoc]

/-- No entry is classified both met and unmet. -/
theorem entryMet_not_unmet (item : PyVal) (h : entryMet item = true) :
    entryUnmet item = false := by
  cases item <;> simp_all [entryMet, entryUnmet, PyVal.isDict]
  case dict kvs =>
    cases hm : pyGet (.dict kvs) "met" <;> simp_all
    all_goals
      intro hu
      exact synonymsDisjoint _ h hu

/-- No entry is classified both unmet and met. -/
theorem entryUnmet_not_met (item : PyVal) (h : entryUnmet item = true) :
    entryMet item = false := by
  cases item <;> simp_all [entryMet, entryUnmet, PyVal.isDict]
  case dict kvs =>
    cases hm : pyGet (.dict kvs) "met" <;> simp_all
    all_goals
      intro hu
      exact synonymsDisjoint _ hu h

/-- Characterization of the derived status on a non-empty results
list. -/
theorem derive_of_results (d : PyVal) (rs : List PyVal)
    (h : pyGet d "acceptance_criteria_results" = .list rs) (hne : rs ≠ []) :
    deriveStatusFromAcceptance d =
      (if rs.any entryMet && rs.any entryUnmet then .partiallyMet
       else if rs.any entryMet then .met
       else if rs.any entryUnmet then .unmet
       else .unmet) := by
  have htr : pyTruthy (.list rs) = true := by
    simp [pyTruthy, hne]
  have hlen : rs.length ≠ 0 := by
    simpa using List.length_pos.mpr hne |>.ne'
  unfold deriveStatusFromAcceptance
  rw [h]
  simp only [pyOr, htr, if_true, if_neg hlen, foldl_deriveStep, Bool.false_or]
  cases hm : rs.any entryMet <;> cases hu : rs.any entryUnmet <;> simp

/-- `runFinalize` on a successfully parsed, truthy dict decision that
validates: the stored status is the derived one and the error field is
empty. -/
theorem run_stores_derived (loads : String → Except String PyVal)
    (items : List PyVal) (crits : List AcceptanceCriterion) (d : PyVal)
    (lastJson : String)
    (hx : extractJson loads items = .threeTuple (some d) Option.none lastJson)
    (ht : pyTruthy d = true) (hd : d.isDict = true)
    (hv : validateAcceptanceCriteriaNames d crits = .ok ()) :
    runFinalize loads items crits =
      .ok ⟨deriveStatusFromAcceptance d, Option.none, finalUrlOf d, some d⟩ := by
  unfold runFinalize
  rw [hx]
  simp [ht, hd, hv]
  rfl

/-! ## Shared concrete fixtures -/

/-- A model response message item carrying the given assistant text. -/
def msgItemOf (t : String) : PyVal :=
  .dict [("type", .str "message"), ("content", .list [.dict [("text", .str t)]])]

/-- A model of `json.loads` that parses exactly one source text to the
given value and fails (as `json.loads` does on malformed input) on
everything else. -/
def loadsOnly (src : String) (v : PyVal) : String → Except String PyVal :=
  fun t => if t = src then .ok v else .error "Expecting value"

/-- A model of `json.loads` that fails on every input. -/
def loadsNever : String → Except String PyVal :=
  fun _ => .error "Expecting value"

/-- A requirement's criteria named AC-1 and AC-2. -/
def critsTwo : List AcceptanceCriterion := [⟨"AC-1"⟩, ⟨"AC-2"⟩]

/-- Results list: every entry recognized met (one by boolean `met`, one
by status synonym). -/
def resultsAllMet : List PyVal :=
  [.dict [("criterion_name", .str "AC-1"), ("met", .bool true)],
   .dict [("criterion_name", .str "AC-2"), ("status", .str "pass")]]

/-- Decision whose entries are all met. -/
def decisionAllMet : PyVal :=
  .dict [("acceptance_criteria_results", .list resultsAllMet)]

/-- Results list: every entry recognized unmet. -/
def resultsAllUnmet : List PyVal :=
  [.dict [("criterion_name", .str "AC-1"), ("met", .bool false)],
   .dict [("criterion_name", .str "AC-2"), ("status", .str "fail")]]

/-- Decision whose entries are all unmet. -/
def decisionAllUnmet : PyVal :=
  .dict [("acceptance_criteria_results", .list resultsAllUnmet)]

/-- Results list with one met and one unmet entry. -/
def resultsMixed : List PyVal :=
  [.dict [("criterion_name", .str "AC-1"), ("met", .bool true)],
   .dict [("criterion_name", .str "AC-2"), ("met", .bool false)]]

/-- Decision with one met and one unmet entry. -/
def decisionMixed : PyVal :=
  .dict [("acceptance_criteria_results", .list resultsMixed)]

/-- The raw text the mixed decision is parsed from (its content only
matters as a lookup key for `loadsOnly`; it is brace-delimited so the
JSON-like scan finds it). -/
def mixedSrc : String := "{mixed}"

/-! ## C1 — status derivation and its storage -/

/-- **C1** (amended).  For every parsed decision JSON, the derivation
rules hold: an empty or missing `acceptance_criteria_results` list
derives `error`; on a non-empty list, all entries met derives `met`,
all unmet derives `unmet`, and at least one of each derives
`partially_met`.  For every parsed decision that is a *non-empty* JSON
object (and whose criteria names validate, else the run raises
instead of returning), this derived status — not any top-level status
field — is the status stored in the `VerficationRunResult`.  (The
original claim, quantified over *every* parsed decision, fails at the
empty object `{}`, which is Python-falsy: `run` then skips derivation
and stores the initial `unmet` — see the counterexample.) -/
theorem claim1_status_derivation :
    (∀ d : PyVal,
        (pyGet d "acceptance_criteria_results" = PyVal.none ∨
         pyGet d "acceptance_criteria_results" = PyVal.list []) →
        deriveStatusFromAcceptance d = VerificationStatus.error) ∧
    (∀ (d : PyVal) (rs : List PyVal),
        pyGet d "acceptance_criteria_results" = PyVal.list rs → rs ≠ [] →
        ((∀ x ∈ rs, entryMet x = true) →
          deriveStatusFromAcceptance d = VerificationStatus.met) ∧
        ((∀ x ∈ rs, entryUnmet x = true) →
          deriveStatusFromAcceptance d = VerificationStatus.unmet) ∧
        ((∃ x ∈ rs, entryMet x = true) → (∃ y ∈ rs, entryUnmet y = true) →
          deriveStatusFromAcceptance d = VerificationStatus.partiallyMet)) ∧
    (∀ (loads : String → Except String PyVal) (items : List PyVal)
        (crits : List AcceptanceCriterion) (d : PyVal) (lastJson : String),
        extractJson loads items = .threeTuple (some d) Option.none lastJson →
        pyTruthy d = true → d.isDict = true →
        validateAcceptanceCriteriaNames d crits = .ok () →
        runFinalize loads items crits =
          .ok ⟨deriveStatusFromAcceptance d, Option.none, finalUrlOf d, some d⟩) := by
  refine ⟨?_, ?_, run_stores_derived⟩
  · intro d h
    rcases h with h | h <;> simp [deriveStatusFromAcceptance, h, pyOr, pyTruthy]
  · intro d rs h hne
    have hch := derive_of_results d rs h hne
    obtain ⟨w, hw⟩ : ∃ x, x ∈ rs := List.exists_mem_of_ne_nil rs hne
    refine ⟨?_, ?_, ?_⟩
    · intro hall
      have hm : rs.any entryMet = true :=
        List.any_eq_true.mpr ⟨w, hw, hall w hw⟩
      have hu : rs.any entryUnmet = false := by
        simp only [List.any_eq_false]
        intro y hy
        simpa using entryMet_not_unmet y (hall y hy)
      rw [hch, hm, hu]
      rfl
    · intro hall
      have hu : rs.any entryUnmet = true :=
        List.any_eq_true.mpr ⟨w, hw, hall w hw⟩
      have hm : rs.any entryMet = false := by
        simp only [List.any_eq_false]
        intro y hy
        simpa using entryUnmet_not_met y (hall y hy)
      rw [hch, hm, hu]
      rfl
    · intro ⟨x, hx, hxm⟩ ⟨y, hy, hyu⟩
      have hm : rs.any entryMet = true := List.any_eq_true.mpr ⟨x, hx, hxm⟩
      have hu : rs.any entryUnmet = true := List.any_eq_true.mpr ⟨y, hy, hyu⟩
      rw [hch, hm, hu]
      rfl

/-- **C1** counterexample to the original claim: the decision `{}`
(a successfully parsed JSON object with `acceptance_criteria_results`
missing) derives `error`, but the run stores `unmet`: the Python guard
`if parsed_json and isinstance(parsed_json, dict)` is false for the
falsy empty dict, so the derived status is never computed or stored. -/
theorem claim1_counterexample :
    deriveStatusFromAcceptance (PyVal.dict []) = VerificationStatus.error ∧
    runFinalize (loadsOnly "{}" (PyVal.dict [])) [msgItemOf "{}"] critsTwo =
      .ok ⟨VerificationStatus.unmet, Option.none, Option.none,
           some (PyVal.dict [])⟩ ∧
    VerificationStatus.unmet ≠ VerificationStatus.error :=
  ⟨rfl, rfl, by decide⟩

/-- **C1** witness: the amended theorem applied at concrete decisions —
all-met, all-unmet and mixed results lists, and the mixed decision
flowing through `runFinalize` with its derived status stored. -/
theorem claim1_witness :
    deriveStatusFromAcceptance (PyVal.dict [("acceptance_criteria_results",
      PyVal.list [])]) = VerificationStatus.error ∧
    deriveStatusFromAcceptance decisionAllMet = VerificationStatus.met ∧
    deriveStatusFromAcceptance decisionAllUnmet = VerificationStatus.unmet ∧
    deriveStatusFromAcceptance decisionMixed = VerificationStatus.partiallyMet ∧
    runFinalize (loadsOnly mixedSrc decisionMixed) [msgItemOf mixedSrc] critsTwo =
      .ok ⟨deriveStatusFromAcceptance decisionMixed, Option.none,
           finalUrlOf decisionMixed, some decisionMixed⟩ := by
  refine ⟨claim1_status_derivation.1 _ (Or.inr rfl), ?_, ?_, ?_, ?_⟩
  · exact (claim1_status_derivation.2.1 decisionAllMet resultsAllMet rfl
      (by simp [resultsAllMet])).1 (by decide)
  · exact (claim1_status_derivation.2.1 decisionAllUnmet resultsAllUnmet rfl
      (by simp [resultsAllUnmet])).2.1 (by decide)
  · exact (claim1_status_derivation.2.1 decisionMixed resultsMixed rfl
      (by simp [resultsMixed])).2.2 (by decide) (by decide)
  · exact claim1_status_derivation.2.2 (loadsOnly mixedSrc decisionMixed)
      [msgItemOf mixedSrc] critsTwo decisionMixed mixedSrc rfl (by decide)
      (by decide) rfl

/-! ## C10 — implicit fallback to unmet -/

/-- **C10** (confirmed).  For every parsed decision whose
`acceptance_criteria_results` is a non-empty list in which no entry is
recognized as met or unmet (each is not a dict, or lacks a boolean
`met` and has a status string outside both synonym lists — i.e. both
`entryMet` and `entryUnmet` are false), the derived status is `unmet`
(the fold leaves `any_met = any_unmet = false` and the final fallback
returns UNMET), not `error`. -/
theorem claim10_unrecognized_unmet :
    ∀ (d : PyVal) (rs : List PyVal),
      pyGet d "acceptance_criteria_results" = PyVal.list rs → rs ≠ [] →
      (∀ x ∈ rs, entryMet x = false ∧ entryUnmet x = false) →
      deriveStatusFromAcceptance d = VerificationStatus.unmet := by
  intro d rs h hne hall
  rw [derive_of_results d rs h hne]
  have hm : rs.any entryMet = false := by
    simp only [List.any_eq_false]
    intro y hy
    simpa using (hall y hy).1
  have hu : rs.any entryUnmet = false := by
    simp only [List.any_eq_false]
    intro y hy
    simpa using (hall y hy).2
  rw [hm, hu]
  rfl

/-- Results list with no recognizable entry: an unknown status string,
a non-dict entry, and an integer (non-boolean) `met` with an unknown
status. -/
def resultsUnrecognized : List PyVal :=
  [.dict [("criterion_name", .str "AC-1"), ("status", .str "unknown")],
   .str "notadict",
   .dict [("met", .int 1), ("status", .str "mystery")]]

/-- Decision whose results list has no recognizable entry. -/
def decisionUnrecognized : PyVal :=
  .dict [("acceptance_criteria_results", .list resultsUnrecognized)]

/-- **C10** witness: the fallback theorem at the concrete unrecognized
results list. -/
theorem claim10_witness :
    deriveStatusFromAcceptance decisionUnrecognized = VerificationStatus.unmet :=
  claim10_unrecognized_unmet decisionUnrecognized resultsUnrecognized rfl
    (by simp [resultsUnrecognized]) (by decide)

/-! ## C2 — decision extraction is supposed to be non-fatal -/

/-- The initial user message of a run (`{"role": "user", "content":
user_message}`): its `get("type")` is `None`, so it contributes no
assistant text. -/
def userItem : PyVal :=
  .dict [("role", .str "user"), ("content", .str "Verify the requirement.")]

/-- **C2** (code bug).  The claim says absence of assistant text, or of
any JSON object, or malformed JSON are all non-fatal, yielding a result
with status `error`.  In the code `_extract_json` returns a *2-tuple*
`(None, "no_assistant_text")` / `(None, "no_json_output")` on the first
two paths, while `run` unpacks three values
(`parsed_json, parse_error, last_json = self._extract_json(items)`), so
those two paths raise `ValueError: not enough values to unpack
(expected 3, got 2)` instead of returning.  Only the malformed-JSON
path (which returns a 3-tuple) completes with status `error` and the
descriptive parse-error string.  This theorem evaluates the code at the
three inputs: no assistant text and no JSON object raise; malformed
JSON returns normally as claimed. -/
theorem claim2_unpack_valueerror :
    runFinalize loadsNever [userItem] critsTwo =
      .error (.unpackValueError "not enough values to unpack (expected 3, got 2)") ∧
    runFinalize loadsNever [msgItemOf "I could not verify this."] critsTwo =
      .error (.unpackValueError "not enough values to unpack (expected 3, got 2)") ∧
    runFinalize loadsNever [msgItemOf "{oops}"] critsTwo =
      .ok ⟨VerificationStatus.error,
           some "json_parse_error: Expecting value; json_like=['{oops}']last_json: {oops}",
           Option.none, Option.none⟩ :=
  ⟨rfl, rfl, rfl⟩

/-! ## C3 — acceptance-criteria name validation -/

/-- **C3** (amended).  For every successfully parsed decision that is
*Python-truthy* (in particular any non-empty JSON object), if the
reported criterion-name set differs from the requirement's
criterion-name set (both as the code builds them: `str(...)`-converted
and stripped), `run` raises `AcceptanceCriteriaMismatchException`
carrying the sorted missing names and the sorted extra names.  (The
original claim, over *every* successfully parsed decision, fails at the
falsy empty object `{}`, for which `run` skips validation — see the
counterexample.) -/
theorem claim3_name_mismatch_raises :
    ∀ (loads : String → Except String PyVal) (items : List PyVal)
      (crits : List AcceptanceCriterion) (d : PyVal) (lastJson : String),
      extractJson loads items = .threeTuple (some d) Option.none lastJson →
      pyTruthy d = true →
      setEqv (expectedNames crits) (reportedNames d) = false →
      runFinalize loads items crits =
        .error (.mismatch
          ⟨sortStrings (setDiff (expectedNames crits) (reportedNames d)),
           sortStrings (setDiff (reportedNames d) (expectedNames crits))⟩) := by
  intro loads items crits d lastJson hx ht hne
  unfold runFinalize
  rw [hx]
  simp [ht, validateAcceptanceCriteriaNames, hne]
  rfl

/-- **C3** counterexample to the original claim: the empty object `{}`
is a successfully parsed decision whose reported name set (empty)
differs from the expected set {AC-1, AC-2}, yet `run` returns normally
(no exception): the guard `if parsed_json:` is false for the falsy
empty dict, so validation is skipped. -/
theorem claim3_counterexample :
    setEqv (expectedNames critsTwo) (reportedNames (PyVal.dict [])) = false ∧
    runFinalize (loadsOnly "{}" (PyVal.dict [])) [msgItemOf "{}"]
        critsTwo =
      .ok ⟨VerificationStatus.unmet, Option.none, Option.none,
           some (PyVal.dict [])⟩ :=
  ⟨rfl, rfl⟩

/-- A decision reporting a result for AC-1 only. -/
def decisionOnly1 : PyVal :=
  .dict [("acceptance_criteria_results",
          .list [.dict [("criterion_name", .str "AC-1"), ("met", .bool true)]])]

/-- The raw text the AC-1-only decision is parsed from. -/
def only1Src : String := "{only1}"

/-- **C3** witness: the spec's own example — criteria {AC-1, AC-2} and
a decision reporting only {AC-1} raise the mismatch with
`missing = [AC-2]` and `extra = []`. -/
theorem claim3_witness :
    runFinalize (loadsOnly only1Src decisionOnly1) [msgItemOf only1Src]
        critsTwo =
      .error (.mismatch ⟨["AC-2"], []⟩) :=
  (claim3_name_mismatch_raises (loadsOnly only1Src decisionOnly1)
    [msgItemOf only1Src] critsTwo decisionOnly1 only1Src rfl (by decide)
    rfl).trans rfl

/-! ## C4 — safety-check acknowledgment ordering -/

/-- The ordering the claim asserts: in the environment trace, every
acknowledgment-callback invocation precedes every GUI-action
execution. -/
def ackBeforeExec (tr : List EnvEvent) : Prop :=
  ∀ (i j : Nat) (a m : String),
    tr.get? i = some (.execAction a) → tr.get? j = some (.ackCallback m) →
    j < i

/-- The acknowledgment loop when every message is acknowledged. -/
theorem ackChecksLoop_all_true (ack : String → Bool) :
    ∀ (ms : List String), (∀ m ∈ ms, ack m = true) →
      ackChecksLoop ack ms = (ms.map .ackCallback, .ok ()) := by
  intro ms
  induction ms with
  | nil => intro _; rfl
  | cons m rest ih =>
    intro h
    have hm : ack m = true := h m (List.mem_cons_self m rest)
    have hrest := ih (fun x hx => h x (List.mem_cons_of_mem m hx))
    simp [ackChecksLoop, hm, hrest]

/-- The acknowledgment loop stops at the first rejected message and
raises. -/
theorem ackChecksLoop_first_false (ack : String → Bool) :
    ∀ (pre : List String) (m : String) (post : List String),
      (∀ x ∈ pre, ack x = true) → ack m = false →
      ackChecksLoop ack (pre ++ m :: post) =
        (pre.map .ackCallback ++ [.ackCallback m],
         .error ("Safety check failed: " ++ m ++
           ". Cannot continue with unacknowledged safety checks.")) := by
  intro pre
  induction pre with
  | nil =>
    intro m post _ hm
    simp [ackChecksLoop, hm]
  | cons x rest ih =>
    intro m post hpre hm
    have hx : ack x = true := hpre x (List.mem_cons_self x rest)
    have hrest := ih m post (fun y hy => hpre y (List.mem_cons_of_mem x hy)) hm
    simp [ackChecksLoop, hx, hrest]

/-- **C4** (amended).  For every `computer_call` item with pending
safety-check messages: the GUI action is executed against the
environment *first* (it is the first event of the trace, followed by
the screenshot); only then is the acknowledgment callback invoked on
each pending message in order, and when all return true the
`computer_call_output` acknowledging the checks is returned, while a
false return for the first rejected message raises the fatal,
run-terminating `ValueError` — so the action's output is never
*reported* as executed without acknowledgment, although the action has
already run.  (The original claim, that the callback runs *before* the
action executes, is refuted by the counterexample.) -/
theorem claim4_ack_after_exec :
    ∀ (ack : String → Bool) (actionType : String) (msgs : List String),
      (handleComputerCall ack actionType msgs).1.head? =
        some (.execAction actionType) ∧
      ((∀ m ∈ msgs, ack m = true) →
        handleComputerCall ack actionType msgs =
          (.execAction actionType :: .screenshot :: msgs.map .ackCallback,
           .ok msgs)) ∧
      (∀ (pre : List String) (m : String) (post : List String),
        msgs = pre ++ m :: post →
        (∀ x ∈ pre, ack x = true) → ack m = false →
        handleComputerCall ack actionType msgs =
          (.execAction actionType ::
             .screenshot :: (pre.map .ackCallback ++ [.ackCallback m]),
           .error ("Safety check failed: " ++ m ++
             ". Cannot continue with unacknowledged safety checks."))) := by
  intro ack actionType msgs
  refine ⟨rfl, ?_, ?_⟩
  · intro hall
    simp [handleComputerCall, ackChecksLoop_all_true ack msgs hall]
    rfl
  · intro pre m post hsplit hpre hm
    subst hsplit
    simp [handleComputerCall, ackChecksLoop_first_false ack pre m post hpre hm]
    rfl

/-- **C4** counterexample to the original claim: a `computer_call` with
one pending safety-check message and an accepting callback produces the
trace `[execAction, screenshot, ackCallback]` — the action executes at
index 0, before the callback is invoked at index 2, so the callback is
not invoked before the GUI action is executed. -/
theorem claim4_counterexample :
    (handleComputerCall (fun _ => true) "click" ["m1"]).1 =
      [.execAction "click", .screenshot, .ackCallback "m1"] ∧
    ¬ ackBeforeExec (handleComputerCall (fun _ => true) "click" ["m1"]).1 := by
  refine ⟨rfl, fun h => ?_⟩
  have h02 := h 0 2 "click" "m1" rfl rfl
  omega

/-- **C4** witness: the amended theorem at concrete inputs — two
acknowledged messages return the output; a rejected second message
raises the fatal error after the first acknowledgment. -/
theorem claim4_witness :
    handleComputerCall (fun _ => true) "click" ["m1", "m2"] =
      ([.execAction "click", .screenshot, .ackCallback "m1", .ackCallback "m2"],
       .ok ["m1", "m2"]) ∧
    handleComputerCall (fun m => m != "bad") "click" ["m1", "bad"] =
      ([.execAction "click", .screenshot, .ackCallback "m1", .ackCallback "bad"],
       .error "Safety check failed: bad. Cannot continue with unacknowledged safety checks.") := by
  constructor
  · exact (claim4_ack_after_exec (fun _ => true) "click" ["m1", "m2"]).2.1
      (by decide)
  · exact (claim4_ack_after_exec (fun m => m != "bad") "click"
      ["m1", "bad"]).2.2 ["m1"] "bad" [] rfl (by decide) (by decide)

/-! ## C5 — step budget -/

/-- The loop, started at the state after `k` completed turns with
`k < M` and enough fuel, raises the step-budget exception reporting
exactly `M` completed turns, provided no turn before the `M`-th ends
with a terminal assistant message. -/
theorem runLoop_reaches_budget (respond : Nat → List PyVal)
    (handle : PyVal → List PyVal) (M : Nat) (hM : 1 ≤ M)
    (H : ∀ t, 1 ≤ t → t < M →
      loopContinues (itemsAfter respond handle t) = true) :
    ∀ (fuel k : Nat), k < M → M ≤ k + fuel →
      runFullTurnLoop respond handle (some M) fuel
        (itemsAfter respond handle k) k = .maxStepsReached M := by
  intro fuel
  induction fuel with
  | zero => intro k hk hle; omega
  | succ n ih =>
    intro k hk hle
    have hcont : loopContinues (itemsAfter respond handle k) = true := by
      rcases Nat.eq_zero_or_pos k with rfl | hpos
      · rfl
      · exact H k hpos hk
    unfold runFullTurnLoop
    rw [hcont]
    by_cases hend : M ≤ k + 1
    · have hMk : M = k + 1 := by omega
      simp [hM, hend, hMk]
    · have hk1 : k + 1 < M := by omega
      have hstep : turnAppend handle (itemsAfter respond handle k) (respond k) =
          itemsAfter respond handle (k + 1) := rfl
      simp only [if_true, hstep, hend]
      simp [hend]
      exact ih (k + 1) hk1 (by omega)

/-- **C5** (confirmed).  For every configured maximum `M ≥ 1` of
completed turns, if no turn among the first `M` ends with a terminal
assistant message (the loop condition stays true after each of turns
1..M-1; the check after turn `M` fires before the condition is ever
re-tested), the loop raises `MaximumReasoningStepsReachedException`
after exactly `M` completed turns — for any fuel bound of at least `M`
iterations. -/
theorem claim5_step_budget :
    ∀ (respond : Nat → List PyVal) (handle : PyVal → List PyVal)
      (M fuel : Nat), 1 ≤ M → M ≤ fuel →
      (∀ t, 1 ≤ t → t < M →
        loopContinues (itemsAfter respond handle t) = true) →
      runFullTurn respond handle (some M) fuel = .maxStepsReached M := by
  intro respond handle M fuel hM hfuel H
  have h0 : runFullTurnLoop respond handle (some M) fuel
      (itemsAfter respond handle 0) 0 = .maxStepsReached M :=
    runLoop_reaches_budget respond handle M hM H fuel 0 hM (by omega)
  exact h0

/-- **C5** witness: the spec's scenario — a maximum of one completed
turn and a first turn whose response has no terminal assistant message
raises the condition after exactly one completed turn. -/
theorem claim5_witness :
    runFullTurn (fun _ => []) (fun _ => []) (some 1) 1 = .maxStepsReached 1 :=
  claim5_step_budget (fun _ => []) (fun _ => []) 1 1 le_rfl le_rfl
    (by intro t h1 h2; omega)

/-! ## C6 — interaction off-by-one -/

/-- One interaction per remaining response. -/
theorem buildInteractionsAux_length :
    ∀ (rest : List ResponseExtra) (prev : Option String) (t : Nat),
      (buildInteractionsAux prev t rest).length = rest.length := by
  intro rest
  induction rest with
  | nil => intro prev t; rfl
  | cons e es ih =>
    intro prev t
    simp [buildInteractionsAux, ih]

/-- Index-wise characterization of the interaction list: entry `j`
is built from response `j` of the remainder, with the screenshot of
the entry before it (`prev` for `j = 0`). -/
theorem buildInteractionsAux_get? :
    ∀ (rest : List ResponseExtra) (prev : Option String) (t j : Nat),
      (buildInteractionsAux prev t rest).get? j =
        (rest.get? j).map (fun e =>
          mkInteraction (t + j + 1)
            (match j with
             | 0 => prev
             | j' + 1 => (((rest.get? j').map
                 (fun x => x.screenshotPath)).getD Option.none)) e) := by
  intro rest
  induction rest with
  | nil => intro prev t j; cases j <;> rfl
  | cons e es ih =>
    intro prev t j
    cases j with
    | zero => rfl
    | succ j' =>
      have step : (buildInteractionsAux prev t (e :: es)).get? (j' + 1) =
          (buildInteractionsAux e.screenshotPath (t + 1) es).get? j' := rfl
      rw [step, ih e.screenshotPath (t + 1) j']
      have harith : t + 1 + j' + 1 = t + (j' + 1) + 1 := by omega
      cases hr : es.get? j' with
      | none =>
        rw [List.get?_cons_succ, hr]
        rfl
      | some x =>
        rw [List.get?_cons_succ, hr]
        simp only [Option.map_some']
        rw [harith]
        cases j' with
        | zero => rfl
        | succ k => rfl

/-- **C6** (confirmed).  For every run completing `T ≥ 1` model
responses (collected in `self._response_extras`), the interaction list
has exactly `T - 1` entries; the entry at position `j` carries
`turn_index = j + 1` (so the list is ordered by turn index and the
first response is recorded as context only); and for every `N` in
`1..T-1`, the `N`-th interaction is `mkInteraction N` of the `N`-th
response's data with the screenshot reference of response `N - 1` —
i.e. usage, action, message text, reasoning summary, response id and
timestamps come from response `N` while the screenshot comes from
response `N - 1`. -/
theorem claim6_interaction_offbyone :
    ∀ (extras : List ResponseExtra), 1 ≤ extras.length →
      (buildInteractions extras).length = extras.length - 1 ∧
      (∀ (j : Nat) (inter : Interaction),
        (buildInteractions extras).get? j = some inter →
        inter.turnIndex = j + 1) ∧
      (∀ (n : Nat) (ePrev eCur : ResponseExtra), 1 ≤ n →
        extras.get? (n - 1) = some ePrev → extras.get? n = some eCur →
        (buildInteractions extras).get? (n - 1) =
          some (mkInteraction n ePrev.screenshotPath eCur)) := by
  intro extras hlen
  match extras with
  | e0 :: rest =>
    refine ⟨?_, ?_, ?_⟩
    · simp [buildInteractions, buildInteractionsAux_length]
    · intro j inter hj
      rw [buildInteractions] at hj
      rw [buildInteractionsAux_get? rest e0.screenshotPath 0 j] at hj
      cases hr : rest.get? j with
      | none => rw [hr] at hj; simp at hj
      | some e =>
        rw [hr] at hj
        simp only [Option.map_some'] at hj
        cases hj
        simp [mkInteraction]
    · intro n ePrev eCur hn hprev hcur
      match n, hn with
      | 1, _ =>
        have hcur' : rest.get? 0 = some eCur := hcur
        have hprev' : some e0 = some ePrev := hprev
        injection hprev' with he
        rw [buildInteractions,
          buildInteractionsAux_get? rest e0.screenshotPath 0 0, hcur', ← he]
        rfl
      | (k + 2), _ =>
        have hcur' : rest.get? (k + 1) = some eCur := hcur
        have hprev' : rest.get? k = some ePrev := hprev
        show (buildInteractionsAux e0.screenshotPath 0 rest).get? (k + 1) =
          some (mkInteraction (k + 2) ePrev.screenshotPath eCur)
        rw [buildInteractionsAux_get? rest e0.screenshotPath 0 (k + 1)]
        simp only [hcur', hprev', Option.map_some', Option.getD_some]
        have harith : (0 : Nat) + (k + 1) + 1 = k + 2 := by omega
        rw [harith]

/-- Three concrete response extras with pairwise-distinct payloads. -/
def extraA : ResponseExtra :=
  ⟨some "resp0", some ⟨10, 1, 0, 11⟩, some "sum0", some "text0",
   some ⟨"click", some "c0"⟩, some "images/002.png", 0, 1, 1⟩

/-- Second concrete response extra. -/
def extraB : ResponseExtra :=
  ⟨some "resp1", some ⟨20, 2, 1, 23⟩, some "sum1", some "text1",
   some ⟨"type", some "c1"⟩, some "images/004.png", 1, 2, 1⟩

/-- Third concrete response extra. -/
def extraC : ResponseExtra :=
  ⟨some "resp2", some ⟨30, 3, 2, 35⟩, some "sum2", some "text2",
   Option.none, Option.none, 2, 3, 1⟩

/-- **C6** witness: three responses yield two interactions; interaction
1 pairs response 1's fields with response 0's screenshot, interaction 2
pairs response 2's fields with response 1's screenshot. -/
theorem claim6_witness :
    (buildInteractions [extraA, extraB, extraC]).length = 2 ∧
    (buildInteractions [extraA, extraB, extraC]).get? 0 =
      some (mkInteraction 1 extraA.screenshotPath extraB) ∧
    (buildInteractions [extraA, extraB, extraC]).get? 1 =
      some (mkInteraction 2 extraB.screenshotPath extraC) :=
  ⟨(claim6_interaction_offbyone [extraA, extraB, extraC] (by simp)).1,
   (claim6_interaction_offbyone [extraA, extraB, extraC] (by simp)).2.2 1
     extraA extraB (by omega) rfl rfl,
   (claim6_interaction_offbyone [extraA, extraB, extraC] (by simp)).2.2 2
     extraB extraC (by omega) rfl rfl⟩

/-! ## C7 — acquire distinctness and timeout -/

/-- State after acquiring `:101` from the freshly seeded size-3 pool. -/
def poolAfter1 : PoolState :=
  ⟨[":99", ":100"], [":101"], [(":101", 1)], true⟩

/-- State after the second acquire (`:100`). -/
def poolAfter2 : PoolState :=
  ⟨[":99"], [":100", ":101"], [(":100", 2), (":101", 1)], true⟩

/-- State after the third acquire (`:99`): the free list is empty. -/
def poolAfter3 : PoolState :=
  ⟨[], [":99", ":100", ":101"], [(":99", 3), (":100", 2), (":101", 1)], true⟩

/-- **C7** (amended).  After seeding a pool of size 3, three
consecutive `acquire` calls return the three pairwise-distinct
displays `:101`, `:100`, `:99`; a fourth `acquire` with any *positive*
`block_timeout` fails with `TimeoutError` once the timeout elapses with
nothing available, while a fourth `acquire` with `block_timeout = 0`
blocks indefinitely (Redis `BLMOVE` treats a zero timeout as "block
forever"), so the zero-timeout call of the original claim never raises
the Timeout condition.  (See the counterexample.) -/
theorem claim7_acquire_distinct_and_timeout :
    acquire 99 3 1 0 PoolState.empty = .ok ":101" poolAfter1 ∧
    acquire 99 3 2 0 poolAfter1 = .ok ":100" poolAfter2 ∧
    acquire 99 3 3 0 poolAfter2 = .ok ":99" poolAfter3 ∧
    ((":101" : String) ≠ ":100" ∧ (":101" : String) ≠ ":99" ∧
     (":100" : String) ≠ ":99") ∧
    acquire 99 3 4 0 poolAfter3 = .blocked ∧
    (∀ (t runId : Nat), 0 < t →
      acquire 99 3 runId t poolAfter3 = .timeout poolAfter3) := by
  refine ⟨rfl, rfl, rfl, by decide, rfl, ?_⟩
  intro t runId ht
  have hne : t ≠ 0 := by omega
  simp [acquire, seedIfNeeded, poolAfter3, hne]

/-- **C7** counterexample to the original claim: the fourth `acquire`
with `block_timeout = 0` on the drained pool evaluates to `blocked`
(the call never returns), not to the Timeout failure the claim
asserts: in Redis a `BLMOVE` timeout of `0` means block indefinitely,
so `disp` is never `None` and `TimeoutError` is never raised. -/
theorem claim7_counterexample :
    acquire 99 3 4 0 poolAfter3 = .blocked ∧
    acquire 99 3 4 0 poolAfter3 ≠ .timeout poolAfter3 ∧
    (acquire 99 3 4 0 poolAfter3).disp? = Option.none :=
  ⟨rfl, fun h => AcquireResult.noConfusion h, rfl⟩

/-- **C7** witness: the amended theorem's positive-timeout clause at
`block_timeout = 1`. -/
theorem claim7_witness :
    acquire 99 3 4 1 poolAfter3 = .timeout poolAfter3 :=
  claim7_acquire_distinct_and_timeout.2.2.2.2.2 1 4 (by omega)

/-! ## C8 — release round-trip and (non-)idempotence -/

/-- Size-1 pool with `:99` leased to run 7. -/
def poolOneLeased : PoolState := ⟨[], [":99"], [(":99", 7)], true⟩

/-- After releasing `:99` once. -/
def poolOneReleased : PoolState := ⟨[":99"], [], [], true⟩

/-- After releasing `:99` a second time: the free list now holds the
display twice. -/
def poolOneDouble : PoolState := ⟨[":99", ":99"], [], [], true⟩

/-- After re-acquiring from the double-freed pool. -/
def poolOneReacq : PoolState := ⟨[":99"], [":99"], [(":99", 8)], true⟩

/-- **C8** (amended).  `release(x)` after `acquire()` makes `x`
acquirable again: the released display lands on the free list.  But
`release` is *not* idempotent: a second `release(x)` LPUSHes `x` onto
the free list again unconditionally, growing it by one copy, so after
a double release the identifier can participate in two leases — two
subsequent acquires can both return `x` (see the counterexample). -/
theorem claim8_release_roundtrip :
    (∀ (base size runId t : Nat) (s : PoolState) (d : String)
        (s' : PoolState),
        acquire base size runId t s = .ok d s' → d ∈ (release d s').free) ∧
    (∀ (s : PoolState) (d : String),
        (release d (release d s)).free = d :: (release d s).free) := by
  constructor
  · intro base size runId t s d s' _
    simp [release]
  · intro s d
    rfl

/-- **C8** counterexample to the original claim: acquire `:99` from a
size-1 pool, release it twice — the second release *changes* the state
(the free list gains a duplicate), and two subsequent acquires both
return `:99`, so the identifier participates in two active leases at
once. -/
theorem claim8_counterexample :
    acquire 99 1 7 0 PoolState.empty = .ok ":99" poolOneLeased ∧
    release ":99" poolOneLeased = poolOneReleased ∧
    release ":99" poolOneReleased = poolOneDouble ∧
    poolOneDouble ≠ poolOneReleased ∧
    acquire 99 1 8 0 poolOneDouble = .ok ":99" poolOneReacq ∧
    acquire 99 1 9 0 poolOneReacq =
      .ok ":99" ⟨[], [":99", ":99"], [(":99", 9)], true⟩ :=
  ⟨rfl, rfl, rfl, by decide, rfl, rfl⟩

/-- **C8** witness: the round-trip clause of the amended theorem at the
concrete size-1 pool. -/
theorem claim8_witness :
    (":99" : String) ∈ (release ":99" poolOneLeased).free :=
  claim8_release_roundtrip.1 99 1 7 0 PoolState.empty ":99" poolOneLeased rfl

/-! ## C9 — reap counting -/

/-- The fold of `reap_expired` counts, relative to the *initial* lease
table (which the fold never modifies), every index whose lease key is
absent. -/
theorem reap_foldl (base : Nat) :
    ∀ (l : List Nat) (n : Nat) (s : PoolState),
      (l.foldl (reapOne base) (n, s)).1 =
        n + (l.filter
          (fun i => !leaseExists s.leases (dispName base i))).length ∧
      (l.foldl (reapOne base) (n, s)).2.leases = s.leases := by
  intro l
  induction l with
  | nil => intro n s; simp
  | cons i rest ih =>
    intro n s
    cases hex : leaseExists s.leases (dispName base i) with
    | true =>
      have hstep : reapOne base (n, s) i = (n, s) := by
        simp [reapOne, hex]
      simp only [List.foldl_cons, hstep, List.filter_cons, hex,
        Bool.not_true]
      simpa using ih n s
    | false =>
      have hstep : reapOne base (n, s) i =
          (n + 1, { s with
            leased := lremAll s.leased (dispName base i)
            free := dispName base i :: lremAll s.free (dispName base i) }) := by
        simp [reapOne, hex]
      have hleases :
          ({ s with
            leased := lremAll s.leased (dispName base i)
            free := dispName base i :: lremAll s.free (dispName base i) }
              : PoolState).leases = s.leases := rfl
      simp only [List.foldl_cons, hstep, List.filter_cons, hex,
        Bool.not_false, if_true]
      have := ih (n + 1)
        { s with
          leased := lremAll s.leased (dispName base i)
          free := dispName base i :: lremAll s.free (dispName base i) }
      rw [hleases] at this
      refine ⟨?_, this.2⟩
      rw [this.1]
      simp [List.length_cons]
      omega

/-- **C9** (amended).  `reapExpired` reclaims every identifier of the
fixed pool whose lease record is absent — forcing a single copy into
the free set and removing stale leased membership — but its return
value counts *all* identifiers with absent lease records, including
those already free; since the scan never changes the lease table, a
second call with no intervening lease changes returns the *same*
count, not zero.  (The original claim — only not-already-free displays
are counted, so a second call reclaims zero — is refuted by the
counterexample.) -/
theorem claim9_reap_count :
    ∀ (base size : Nat) (s : PoolState),
      (reapExpired base size s).1 =
        ((List.range size).filter
          (fun i => !leaseExists s.leases (dispName base i))).length ∧
      (reapExpired base size s).2.leases = s.leases ∧
      (reapExpired base size (reapExpired base size s).2).1 =
        (reapExpired base size s).1 := by
  intro base size s
  have h1 := reap_foldl base (List.range size) 0 s
  have h2 := reap_foldl base (List.range size) 0 (reapExpired base size s).2
  refine ⟨by simpa using h1.1, h1.2, ?_⟩
  show ((List.range size).foldl (reapOne base)
      (0, (reapExpired base size s).2)).1 = (reapExpired base size s).1
  rw [h2.1]
  have hl : (reapExpired base size s).2.leases = s.leases := h1.2
  rw [hl]
  simpa using h1.1.symm

/-- **C9** counterexample to the original claim: on a freshly seeded
size-3 pool (all displays free, no lease records) `reapExpired`
returns 3, and a second call with no intervening lease changes returns
3 again — not zero. -/
theorem claim9_counterexample :
    (reapExpired 99 3 ⟨[":99", ":100", ":101"], [], [], true⟩).1 = 3 ∧
    (reapExpired 99 3
        (reapExpired 99 3 ⟨[":99", ":100", ":101"], [], [], true⟩).2).1 = 3 ∧
    (3 : Nat) ≠ 0 :=
  ⟨rfl, rfl, by decide⟩

end GUISpector
